import Mathlib

/-!
Verification of the short-gainers decision engine.

This file is a shallow embedding, over exact rational arithmetic, of the
scoring/ranking core of the repository:

* `src/src/ranking/ranker.py`        — risk penalties, final score, trade expression
* `src/src/sentiment/catalyst.py`    — catalyst classification and sentiment adjustment
* `src/src/technicals/scoring.py`    — six technical sub-scores and their combination
* `src/src/technicals/indicators.py` — minimum-history guards of the indicator layer
* `src/src/models/candidate.py`      — enums and data model

Python floats and Decimals are both modelled as `ℚ`.  The Python
`round(x, n)` builtin (round-half-to-even) is modelled exactly by `roundTo`.
Pandas/pandas_ta numeric kernels (RSI/MACD/... formulas over a price frame)
are external library calls as seen from the embedded code; where a
repository function guards such a call, the call itself is taken as a
function parameter and only repository logic is embedded.
-/

/-- Round-half-to-even to an integer, the rounding mode of Python `round`. -/
def roundHalfEven (x : ℚ) : ℤ :=
  if x - Rat.floor x < 1/2 then Rat.floor x
  else if (1:ℚ)/2 < x - Rat.floor x then Rat.floor x + 1
  else if Rat.floor x % 2 = 0 then Rat.floor x else Rat.floor x + 1

/-- Python `round(x, d)`: round-half-to-even at `d` decimal digits. -/
def roundTo (d : ℕ) (x : ℚ) : ℚ := (roundHalfEven (x * 10 ^ d) : ℚ) / 10 ^ d

/-- Function `clampQ lo hi x` is Python `max(lo, min(hi, x))`. -/
def clampQ (lo hi x : ℚ) : ℚ := max lo (min hi x)

-- -----------------------------------------------------------------------------
-- Data model (src/src/models/candidate.py, src/src/models/ticker.py)
-- -----------------------------------------------------------------------------

/-- Risk flags that may be attached to candidates (`RiskFlag`). -/
inductive RiskFlag where
  | MICROCAP
  | HIGH_SQUEEZE
  | FUNDAMENTAL_REPRICING
  | LOW_LIQUIDITY
  | EXTREME_VOLATILITY
  | WARRANT
  | NONE
  deriving DecidableEq, Repr

/-- Preferred way to express a short view (`TradeExpression`). -/
inductive TradeExpression where
  | SHORT_SHARES
  | BUY_PUTS
  | PUT_SPREADS
  | AVOID
  deriving DecidableEq, Repr

/-- Classification of the news catalyst driving the move (`CatalystClassification`). -/
inductive CatalystClassification where
  | EARNINGS
  | FDA
  | MA
  | UPGRADE
  | DOWNGRADE
  | CONTRACT
  | PRODUCT_LAUNCH
  | SPECULATIVE
  | MEME_SOCIAL
  | UNKNOWN
  deriving DecidableEq, Repr

/-- Overall sentiment assessment (`SentimentLevel`). -/
inductive SentimentLevel where
  | STRONGLY_POSITIVE
  | POSITIVE
  | MIXED
  | NEGATIVE
  | STRONGLY_NEGATIVE
  deriving DecidableEq, Repr

/-- Snapshot of technical indicator values for a ticker (`TechnicalState`). -/
structure TechnicalState where
  rsi_daily : Option ℚ := none
  rsi_intraday : Option ℚ := none
  macd_line : Option ℚ := none
  macd_signal : Option ℚ := none
  macd_histogram : Option ℚ := none
  macd_histogram_declining : Bool := false
  bollinger_upper : Option ℚ := none
  bollinger_middle : Option ℚ := none
  bollinger_lower : Option ℚ := none
  bollinger_position : Option ℚ := none
  price_above_upper_band : Bool := false
  atr_daily : Option ℚ := none
  atr_percent : Option ℚ := none
  obv_trend : Option String := none
  volume_vs_avg : Option ℚ := none
  volume_confirming_price : Bool := true
  roc_1d : Option ℚ := none
  roc_3d : Option ℚ := none
  roc_5d : Option ℚ := none
  lower_high_forming : Bool := false
  exhaustion_candle : Bool := false
  deriving DecidableEq, Repr

/-- Assessment of news/catalyst (`NewsAssessment`). -/
structure NewsAssessment where
  catalyst_type : CatalystClassification := CatalystClassification.UNKNOWN
  sentiment : SentimentLevel := SentimentLevel.MIXED
  summary : String := ""
  justifies_repricing : Bool := false
  confidence : ℚ := 1/2
  deriving DecidableEq, Repr

/-- Key price levels for trade management (`KeyLevels`). -/
structure KeyLevels where
  intraday_high : Option ℚ := none
  intraday_low : Option ℚ := none
  vwap : Option ℚ := none
  prior_day_close : Option ℚ := none
  resistance_1 : Option ℚ := none
  support_1 : Option ℚ := none
  deriving DecidableEq, Repr

/-- A fully analyzed short candidate (`ShortCandidate`).  `news_assessment` is
kept optional because `rank_candidate` passes `sentiment_result.assessment`,
an optional value, into this field. -/
structure ShortCandidate where
  ticker : String
  current_price : ℚ
  change_percent : ℚ
  tech_score : ℚ
  news_adjustment : ℚ := 0
  final_score : ℚ
  technical_state : TechnicalState
  news_assessment : Option NewsAssessment
  risk_flags : List RiskFlag := []
  preferred_expression : TradeExpression
  key_levels : KeyLevels
  market_cap : Option ℤ := none
  avg_volume : Option ℤ := none
  sector : Option String := none
  deriving DecidableEq, Repr

/-- Single news article (`NewsItem`); `published_at` is modelled as an
integer timestamp. -/
structure NewsItem where
  title : String
  url : String
  source : String
  published_at : ℤ
  summary : Option String := none
  ticker_sentiment : Option ℚ := none
  relevance_score : Option ℚ := none
  deriving DecidableEq, Repr

/-- Collection of news items for a ticker (`NewsFeed`); `fetched_at` is an
integer timestamp. -/
structure NewsFeed where
  ticker : String
  items : List NewsItem
  fetched_at : ℤ
  deriving DecidableEq, Repr

-- -----------------------------------------------------------------------------
-- Sentiment / catalyst analysis (src/src/sentiment/catalyst.py)
-- -----------------------------------------------------------------------------

/-- Result of sentiment analysis for a ticker (`SentimentResult`). -/
structure SentimentResult where
  ticker : String
  assessment : Option NewsAssessment
  score_adjustment : ℚ
  raw_adjustment : ℚ
  analysis_source : String
  error : Option String := none
  deriving DecidableEq, Repr

/-- Property `SentimentResult.is_fundamental_repricing` of the source. -/
def SentimentResult.is_fundamental_repricing (r : SentimentResult) : Bool :=
  match r.assessment with
  | none => false
  | some a => a.justifies_repricing

/-- Confidence of the attached assessment; `0` when no assessment is present.
In the source, `assessment.confidence` is only read behind an
`is_fundamental_repricing` guard, which implies the assessment is present. -/
def SentimentResult.assessmentConfidence (r : SentimentResult) : ℚ :=
  match r.assessment with
  | none => 0
  | some a => a.confidence

/-- Embeds `CATALYST_SCORE_ADJUSTMENTS` dict; variants absent from the dict
(DOWNGRADE, PRODUCT_LAUNCH) fall back to the `.get` default `0.0`. -/
def CATALYST_SCORE_ADJUSTMENTS : CatalystClassification → ℚ
  | CatalystClassification.EARNINGS => -3
  | CatalystClassification.FDA => -4
  | CatalystClassification.MA => -5
  | CatalystClassification.UPGRADE => -2
  | CatalystClassification.CONTRACT => -(3/2)
  | CatalystClassification.SPECULATIVE => 3/2
  | CatalystClassification.MEME_SOCIAL => 2
  | CatalystClassification.UNKNOWN => 1/2
  | _ => 0

/-- Embeds `SENTIMENT_ADJUSTMENTS` dict. -/
def SENTIMENT_ADJUSTMENTS : SentimentLevel → ℚ
  | SentimentLevel.STRONGLY_POSITIVE => -1
  | SentimentLevel.POSITIVE => -(1/2)
  | SentimentLevel.MIXED => 1/2
  | SentimentLevel.NEGATIVE => 1
  | SentimentLevel.STRONGLY_NEGATIVE => 3/2

/-- Embeds `compute_score_adjustment`: returns `(capped_adjustment, raw_adjustment)`. -/
def compute_score_adjustment (assessment : NewsAssessment) : ℚ × ℚ :=
  let raw0 := CATALYST_SCORE_ADJUSTMENTS assessment.catalyst_type
      + SENTIMENT_ADJUSTMENTS assessment.sentiment
  let raw1 := if assessment.justifies_repricing then raw0 - 2 else raw0
  let raw := raw1 * assessment.confidence
  let capped := max (-5) (min 3 raw)
  (capped, raw)

/-- Helper for Python substring containment: does the second char list
begin with the first one. -/
def startsWithChars : List Char → List Char → Bool
  | [], _ => true
  | _ :: _, [] => false
  | a :: as, b :: bs => a == b && startsWithChars as bs

/-- Python `kw in text` substring containment on char lists. -/
def occursIn (kw : List Char) : List Char → Bool
  | [] => kw.isEmpty
  | c :: rest => startsWithChars kw (c :: rest) || occursIn kw rest

/-- Python `any(kw in text for kw in kws)`. -/
def anyKeyword (kws : List String) (text : List Char) : Bool :=
  kws.any (fun kw => occursIn kw.data text)

/-- Python `" ".join(headlines).lower()` as a char list. -/
def joinLowerHeadlines (headlines : List String) : List Char :=
  (String.intercalate " " headlines).data.map Char.toLower

def earnings_keywords : List String :=
  ["earnings", "eps", "revenue", "profit", "beat", "miss", "guidance"]

def fda_keywords : List String :=
  ["fda", "approval", "approved", "clinical", "trial", "phase"]

def ma_keywords : List String :=
  ["merger", "acquisition", "acquire", "buyout", "takeover", "deal"]

def upgrade_keywords : List String :=
  ["upgrade", "price target", "outperform", "buy rating"]

def contract_keywords : List String :=
  ["contract", "award", "partnership", "agreement", "deal"]

def meme_keywords : List String :=
  ["reddit", "wsb", "squeeze", "moon", "apes", "yolo"]

def speculative_keywords : List String :=
  ["potential", "could", "may", "exploring", "considering"]

/-- Embeds `heuristic_catalyst_detection`: keyword-based catalyst detection. -/
def heuristic_catalyst_detection (headlines : List String) (change_percent : ℚ) :
    NewsAssessment :=
  let text := joinLowerHeadlines headlines
  let cls : CatalystClassification × SentimentLevel × Bool × String :=
    if anyKeyword fda_keywords text then
      (CatalystClassification.FDA, SentimentLevel.STRONGLY_POSITIVE, true,
        "FDA/clinical news detected")
    else if anyKeyword ma_keywords text then
      (CatalystClassification.MA, SentimentLevel.STRONGLY_POSITIVE, true,
        "M&A activity detected")
    else if anyKeyword earnings_keywords text then
      (CatalystClassification.EARNINGS, SentimentLevel.POSITIVE, true,
        "Earnings-related news detected")
    else if anyKeyword upgrade_keywords text then
      (CatalystClassification.UPGRADE, SentimentLevel.POSITIVE, false,
        "Analyst upgrade detected")
    else if anyKeyword contract_keywords text then
      (CatalystClassification.CONTRACT, SentimentLevel.POSITIVE, false,
        "Contract/partnership news detected")
    else if anyKeyword meme_keywords text then
      (CatalystClassification.MEME_SOCIAL, SentimentLevel.MIXED, false,
        "Social/meme activity detected")
    else if anyKeyword speculative_keywords text then
      (CatalystClassification.SPECULATIVE, SentimentLevel.MIXED, false,
        "Speculative/vague PR detected")
    else
      (CatalystClassification.UNKNOWN, SentimentLevel.MIXED, false,
        "No clear catalyst identified")
  let sentiment :=
    if 50 < change_percent ∧ cls.2.2.1 = false then SentimentLevel.MIXED else cls.2.1
  { catalyst_type := cls.1
    sentiment := sentiment
    summary := cls.2.2.2
    justifies_repricing := cls.2.2.1
    confidence := 1/2 }

/-- The Claude news-analysis call (`claude_client.analyze_news`): an external,
possibly failing request, modelled as an abstract function from the call
arguments to either an assessment or an exception. -/
def ClaudeAnalyze : Type :=
  String → ℚ → NewsFeed → Except String NewsAssessment

/-- Embeds `analyze_catalyst`: no-news fixed path, then Claude (falling back to the
heuristic on any exception), then the heuristic. -/
def analyze_catalyst (ticker : String) (change_percent : ℚ)
    (news_feed : Option NewsFeed) (claude_client : Option ClaudeAnalyze) :
    SentimentResult :=
  match news_feed with
  | none =>
    { ticker := ticker
      assessment := some
        { catalyst_type := CatalystClassification.UNKNOWN
          sentiment := SentimentLevel.MIXED
          summary := "No news available"
          justifies_repricing := false
          confidence := 1/5 }
      score_adjustment := 1/2
      raw_adjustment := 1/2
      analysis_source := "none" }
  | some feed =>
    if feed.items.length = 0 then
      { ticker := ticker
        assessment := some
          { catalyst_type := CatalystClassification.UNKNOWN
            sentiment := SentimentLevel.MIXED
            summary := "No news available"
            justifies_repricing := false
            confidence := 1/5 }
        score_adjustment := 1/2
        raw_adjustment := 1/2
        analysis_source := "none" }
    else
      let heuristicResult : SentimentResult :=
        let headlines := (feed.items.take 10).map NewsItem.title
        let assessment := heuristic_catalyst_detection headlines change_percent
        let adj := compute_score_adjustment assessment
        { ticker := ticker
          assessment := some assessment
          score_adjustment := adj.1
          raw_adjustment := adj.2
          analysis_source := "heuristic" }
      match claude_client with
      | some client =>
        match client ticker change_percent feed with
        | Except.ok assessment =>
          let adj := compute_score_adjustment assessment
          { ticker := ticker
            assessment := some assessment
            score_adjustment := adj.1
            raw_adjustment := adj.2
            analysis_source := "claude" }
        | Except.error _ => heuristicResult
      | none => heuristicResult

/-- Embeds `get_risk_flag_from_sentiment`. -/
def get_risk_flag_from_sentiment (result : SentimentResult) : Option RiskFlag :=
  if result.is_fundamental_repricing then some RiskFlag.FUNDAMENTAL_REPRICING
  else none

-- -----------------------------------------------------------------------------
-- Ranking (src/src/ranking/ranker.py)
-- -----------------------------------------------------------------------------

/-- Embeds `RISK_PENALTIES` dict; `compute_risk_penalty` reads it with
`.get(flag, 0.0)`, so WARRANT (absent from the dict) contributes `0.0`. -/
def RISK_PENALTIES : RiskFlag → ℚ
  | RiskFlag.MICROCAP => 1
  | RiskFlag.HIGH_SQUEEZE => 2
  | RiskFlag.LOW_LIQUIDITY => 1/2
  | RiskFlag.EXTREME_VOLATILITY => 3/2
  | RiskFlag.FUNDAMENTAL_REPRICING => 3
  | RiskFlag.NONE => 0
  | _ => 0

/-- Input data for ranking a single candidate (`RankingInput`). -/
structure RankingInput where
  ticker : String
  current_price : ℚ
  change_percent : ℚ
  tech_score : ℚ
  tech_state : TechnicalState
  sentiment_result : SentimentResult
  risk_flags : List RiskFlag
  key_levels : KeyLevels
  market_cap : Option ℤ := none
  avg_volume : Option ℤ := none
  beta : Option ℚ := none
  deriving DecidableEq, Repr

/-- Result of ranking calculation (`RankingResult`). -/
structure RankingResult where
  ticker : String
  final_score : ℚ
  tech_score : ℚ
  sentiment_adjustment : ℚ
  risk_penalty : ℚ
  expression : TradeExpression
  candidate : ShortCandidate
  deriving DecidableEq, Repr

/-- The loop of `compute_risk_penalty`: accumulate the penalty of each flag
not yet in the `seen` set. -/
def computeRiskPenaltyAux : List RiskFlag → Finset RiskFlag → ℚ
  | [], _ => 0
  | f :: rest, seen =>
    if f ∈ seen then computeRiskPenaltyAux rest seen
    else RISK_PENALTIES f + computeRiskPenaltyAux rest (insert f seen)

/-- Embeds `compute_risk_penalty`: total risk penalty over the flags, each distinct
flag counted once. -/
def compute_risk_penalty (risk_flags : List RiskFlag) : ℚ :=
  computeRiskPenaltyAux risk_flags ∅

/-- Embeds `has_dangerous_risk_profile_from_flags`: the flag set contains one of the
dangerous combinations. -/
def has_dangerous_risk_profile_from_flags (flags : Finset RiskFlag) : Bool :=
  [({RiskFlag.MICROCAP, RiskFlag.HIGH_SQUEEZE} : Finset RiskFlag),
   {RiskFlag.HIGH_SQUEEZE, RiskFlag.EXTREME_VOLATILITY},
   {RiskFlag.MICROCAP, RiskFlag.HIGH_SQUEEZE, RiskFlag.LOW_LIQUIDITY}].any
    (fun combo => decide (combo ⊆ flags))

/-- Embeds `determine_expression`: the trade-expression decision table, evaluated in
source order.  The beta branch falls through to the microcap/default tail
when beta is absent or not beyond `max_beta_for_shares`. -/
def determine_expression (final_score : ℚ) (risk_flags : List RiskFlag)
    (beta : Option ℚ) (sentiment_result : SentimentResult)
    (max_beta_for_shares : ℚ := 3) : TradeExpression :=
  let flags_set := risk_flags.toFinset
  let tail :=
    if RiskFlag.MICROCAP ∈ flags_set then TradeExpression.PUT_SPREADS
    else TradeExpression.SHORT_SHARES
  if has_dangerous_risk_profile_from_flags flags_set then TradeExpression.AVOID
  else if sentiment_result.is_fundamental_repricing = true ∧
      (7:ℚ)/10 ≤ sentiment_result.assessmentConfidence then TradeExpression.AVOID
  else if final_score < 3 then TradeExpression.AVOID
  else if RiskFlag.HIGH_SQUEEZE ∈ flags_set then TradeExpression.BUY_PUTS
  else if RiskFlag.EXTREME_VOLATILITY ∈ flags_set then TradeExpression.PUT_SPREADS
  else
    match beta with
    | some beta_val =>
      if max_beta_for_shares * (3/2) < beta_val then TradeExpression.AVOID
      else if max_beta_for_shares < beta_val then TradeExpression.BUY_PUTS
      else tail
    | none => tail

/-- Embeds `rank_candidate`: combine technical score, sentiment adjustment and risk
penalty into the final score, the trade expression and the candidate. -/
def rank_candidate (input_data : RankingInput) (max_beta_for_shares : ℚ := 3) :
    RankingResult :=
  let tech_score := input_data.tech_score
  let sentiment_adj := input_data.sentiment_result.score_adjustment
  let risk_flags :=
    match get_risk_flag_from_sentiment input_data.sentiment_result with
    | some sentiment_flag =>
      if sentiment_flag ∈ input_data.risk_flags then input_data.risk_flags
      else input_data.risk_flags ++ [sentiment_flag]
    | none => input_data.risk_flags
  let risk_penalty := compute_risk_penalty risk_flags
  let raw_final := tech_score + sentiment_adj - risk_penalty
  let final_score := max 0 (min 10 raw_final)
  let expression := determine_expression final_score risk_flags input_data.beta
    input_data.sentiment_result max_beta_for_shares
  let candidate : ShortCandidate :=
    { ticker := input_data.ticker
      current_price := input_data.current_price
      change_percent := input_data.change_percent
      final_score := roundTo 1 final_score
      tech_score := input_data.tech_score
      news_adjustment := roundTo 2 sentiment_adj
      news_assessment := input_data.sentiment_result.assessment
      technical_state := input_data.tech_state
      risk_flags := if risk_flags.isEmpty then [RiskFlag.NONE] else risk_flags
      preferred_expression := expression
      key_levels := input_data.key_levels
      market_cap := input_data.market_cap
      avg_volume := input_data.avg_volume }
  { ticker := input_data.ticker
    final_score := roundTo 1 final_score
    tech_score := input_data.tech_score
    sentiment_adjustment := sentiment_adj
    risk_penalty := risk_penalty
    expression := expression
    candidate := candidate }

/-- Embeds `rank_candidates_batch`: rank each input, then sort by final score
descending.  Python `list.sort` is a stable sort; with `reverse=True` it
keeps tied elements in their original relative order, which is exactly the
behaviour of insertion sort under the non-strict descending relation. -/
def rank_candidates_batch (inputs : List RankingInput)
    (max_beta_for_shares : ℚ := 3) : List RankingResult :=
  List.insertionSort (fun a b => b.final_score ≤ a.final_score)
    (inputs.map (fun input_data => rank_candidate input_data max_beta_for_shares))

-- -----------------------------------------------------------------------------
-- Technical scoring (src/src/technicals/scoring.py, config/settings.py)
-- -----------------------------------------------------------------------------

/-- The numeric configuration of `Settings` (config/settings.py) with its
documented defaults.  API-key, cache-path and rate-limit fields are
ingestion plumbing outside the decision core and are not part of any
embedded computation. -/
structure Settings where
  min_market_cap : ℤ := 200000000
  min_avg_volume : ℤ := 500000
  max_beta_for_shares : ℚ := 3
  rsi_period : ℕ := 14
  rsi_overbought : ℕ := 70
  rsi_extremely_overbought : ℕ := 80
  macd_fast : ℕ := 12
  macd_slow : ℕ := 26
  macd_signal : ℕ := 9
  bollinger_window : ℕ := 20
  bollinger_std : ℚ := 2
  atr_period : ℕ := 14
  lookback_days : ℕ := 60
  weight_rsi : ℚ := 1/5
  weight_bollinger : ℚ := 1/5
  weight_macd : ℚ := 3/20
  weight_volume : ℚ := 3/20
  weight_momentum : ℚ := 3/20
  weight_pattern : ℚ := 3/20
  deriving DecidableEq, Repr

/-- MACD indicator values (`MACDResult`). -/
structure MACDResult where
  macd_line : Option ℚ
  signal_line : Option ℚ
  histogram : Option ℚ
  histogram_declining : Bool := false
  deriving DecidableEq, Repr

/-- Bollinger Bands values (`BollingerResult`). -/
structure BollingerResult where
  upper : Option ℚ
  middle : Option ℚ
  lower : Option ℚ
  bandwidth : Option ℚ
  percent_b : Option ℚ
  price_above_upper : Bool := false
  deriving DecidableEq, Repr

/-- Embeds `score_rsi`: step function of the RSI value; `None` scores 0.  The
`settings` argument is accepted and unused, as in the source. -/
def score_rsi (rsi : Option ℚ) (settings : Settings) : ℚ :=
  match rsi with
  | none => 0
  | some rsi_val =>
    if 90 ≤ rsi_val then 2
    else if 80 ≤ rsi_val then 17/10
    else if 70 ≤ rsi_val then 13/10
    else if 60 ≤ rsi_val then 4/5
    else if 50 ≤ rsi_val then 3/10
    else 0

/-- Embeds `score_bollinger`: position within the bands; missing `%B` scores 0. -/
def score_bollinger (bb : BollingerResult) : ℚ :=
  match bb.percent_b with
  | none => 0
  | some pct_b =>
    if bb.price_above_upper then 2
    else if 19/20 ≤ pct_b then 17/10
    else if 4/5 ≤ pct_b then 13/10
    else if 3/5 ≤ pct_b then 7/10
    else if 1/2 ≤ pct_b then 3/10
    else 0

/-- Embeds `score_macd`: declining histogram, small positive histogram and bearish
crossover bonuses, capped at 1.5; missing histogram scores 0. -/
def score_macd (macd : MACDResult) : ℚ :=
  match macd.histogram with
  | none => 0
  | some hist =>
    let score0 : ℚ := if macd.histogram_declining then 4/5 else 0
    let score1 : ℚ := if 0 < hist ∧ hist < 1/10 then score0 + 2/5 else score0
    let score2 : ℚ :=
      match macd.macd_line, macd.signal_line with
      | some ml, some sl => if ml < sl then score1 + 3/10 else score1
      | _, _ => score1
    min score2 (3/2)

/-- Embeds `score_volume`: divergence bonus plus low-relative-volume bonus, capped
at 1.5. -/
def score_volume (volume_vs_avg : Option ℚ) (volume_confirming : Bool) : ℚ :=
  let score0 : ℚ := if volume_confirming then 0 else 1
  let score1 : ℚ :=
    match volume_vs_avg with
    | some vol_ratio =>
      if vol_ratio < 7/10 then score0 + 1/2
      else if vol_ratio < 1 then score0 + 1/5
      else score0
    | none => score0
  min score1 (3/2)

/-- Embeds `score_momentum`: additive 1-day and 5-day ROC bands plus a 0.3 bonus
when the 3-day ROC is below 60% of a positive 5-day ROC, capped at 1.5. -/
def score_momentum (roc_1d roc_3d roc_5d : Option ℚ) : ℚ :=
  let s1 : ℚ :=
    match roc_1d with
    | some r1 => if 50 ≤ r1 then 3/5 else if 30 ≤ r1 then 2/5 else if 20 ≤ r1 then 1/5 else 0
    | none => 0
  let s2 : ℚ :=
    match roc_5d with
    | some r5 =>
      if 100 ≤ r5 then s1 + 3/5 else if 50 ≤ r5 then s1 + 2/5
      else if 30 ≤ r5 then s1 + 1/5 else s1
    | none => s1
  let s3 : ℚ :=
    match roc_3d, roc_5d with
    | some r3, some r5 => if 0 < r5 ∧ r3 < r5 * (3/5) then s2 + 3/10 else s2
    | _, _ => s2
  min s3 (3/2)

/-- Embeds `score_patterns`: lower-high and exhaustion-candle bonuses, capped at 1.5. -/
def score_patterns (lower_high exhaustion : Bool) : ℚ :=
  min ((if lower_high then (4/5 : ℚ) else 0) + (if exhaustion then (7/10 : ℚ) else 0)) (3/2)

/-- Detailed breakdown of technical score components (`TechScoreBreakdown`). -/
structure TechScoreBreakdown where
  rsi_score : ℚ := 0
  bollinger_score : ℚ := 0
  macd_score : ℚ := 0
  volume_score : ℚ := 0
  momentum_score : ℚ := 0
  pattern_score : ℚ := 0
  total_score : ℚ := 0
  deriving DecidableEq, Repr

/-- The indicator values that `compute_technical_score` extracts from the
daily/intraday price frames through the indicator layer (`get_current_rsi`,
`get_current_bollinger`, `get_current_macd`, `get_volume_vs_average`,
`is_volume_confirming_price`, `get_current_roc`, `detect_lower_high`,
`detect_exhaustion_candle`) before combining them.  The pattern booleans
are the daily/intraday disjunctions already formed. -/
structure IndicatorSnapshot where
  rsi_daily : Option ℚ
  rsi_intraday : Option ℚ
  bb : BollingerResult
  macd : MACDResult
  volume_vs_avg : Option ℚ
  volume_confirming : Bool
  roc_1d : Option ℚ
  roc_3d : Option ℚ
  roc_5d : Option ℚ
  lower_high : Bool
  exhaustion : Bool
  deriving DecidableEq, Repr

/-- The sub-score combination of `compute_technical_score` (scoring.py,
lines 278-337): six sub-scores, the weighted raw total and the cap at 10. -/
def compute_breakdown (settings : Settings) (snap : IndicatorSnapshot) :
    TechScoreBreakdown :=
  let rsi_for_scoring :=
    match snap.rsi_daily, snap.rsi_intraday with
    | some rsi_d, some rsi_i => some (max rsi_d rsi_i)
    | _, _ => snap.rsi_daily
  let rsi_score := score_rsi rsi_for_scoring settings
  let bollinger_score := score_bollinger snap.bb
  let macd_score := score_macd snap.macd
  let volume_score := score_volume snap.volume_vs_avg snap.volume_confirming
  let momentum_score := score_momentum snap.roc_1d snap.roc_3d snap.roc_5d
  let pattern_score := score_patterns snap.lower_high snap.exhaustion
  let raw_total :=
    rsi_score * settings.weight_rsi / (1/5)
    + bollinger_score * settings.weight_bollinger / (1/5)
    + macd_score * settings.weight_macd / (3/20)
    + volume_score * settings.weight_volume / (3/20)
    + momentum_score * settings.weight_momentum / (3/20)
    + pattern_score * settings.weight_pattern / (3/20)
  { rsi_score := rsi_score
    bollinger_score := bollinger_score
    macd_score := macd_score
    volume_score := volume_score
    momentum_score := momentum_score
    pattern_score := pattern_score
    total_score := min raw_total 10 }

/-- The `Decimal(str(round(breakdown.total_score, 1)))` score returned by
`compute_technical_score`. -/
def compute_technical_score (settings : Settings) (snap : IndicatorSnapshot) : ℚ :=
  roundTo 1 (compute_breakdown settings snap).total_score

-- -----------------------------------------------------------------------------
-- Indicator-layer guards (src/src/technicals/indicators.py)
-- -----------------------------------------------------------------------------

/-- One OHLCV bar of the price frame; `opn` is the `open` column. -/
structure Bar where
  opn : ℚ
  high : ℚ
  low : ℚ
  close : ℚ
  volume : ℤ
  deriving DecidableEq, Repr

/-- Embeds `compute_rsi`: `None` below `period + 1` bars, otherwise the pandas_ta
RSI series (taken as the function argument `ta_rsi`; `none` entries of its
output model NaN). -/
def compute_rsi (ta_rsi : List Bar → ℕ → List (Option ℚ)) (df : List Bar)
    (period : ℕ) : Option (List (Option ℚ)) :=
  if df.isEmpty || df.length < period + 1 then none
  else some (ta_rsi df period)

/-- Embeds `get_current_rsi`: last RSI value, `None` when the series is missing,
empty or ends in NaN; rounded to 2 decimals. -/
def get_current_rsi (ta_rsi : List Bar → ℕ → List (Option ℚ)) (df : List Bar)
    (period : ℕ) : Option ℚ :=
  match compute_rsi ta_rsi df period with
  | none => none
  | some rsi =>
    match rsi.getLast? with
    | none => none
    | some none => none
    | some (some latest) => some (roundTo 2 latest)

/-- One row of the pandas_ta MACD frame: MACD line, signal line, histogram
(`none` models NaN). -/
structure MACDRow where
  macd : Option ℚ
  signal : Option ℚ
  hist : Option ℚ
  deriving DecidableEq, Repr

/-- Embeds `compute_macd`: `None` below `slow + signal` bars. -/
def compute_macd (ta_macd : List Bar → ℕ → ℕ → ℕ → List MACDRow) (df : List Bar)
    (fast slow signal : ℕ) : Option (List MACDRow) :=
  if df.isEmpty || df.length < slow + signal then none
  else some (ta_macd df fast slow signal)

/-- Embeds `get_current_macd`: last MACD row (rounded to 4 decimals) plus the
strictly-declining-histogram test over the last three rows; an all-`none`
result when the frame is missing or empty. -/
def get_current_macd (ta_macd : List Bar → ℕ → ℕ → ℕ → List MACDRow)
    (df : List Bar) (fast slow signal : ℕ) : MACDResult :=
  match compute_macd ta_macd df fast slow signal with
  | none => { macd_line := none, signal_line := none, histogram := none }
  | some rows =>
    match rows.getLast? with
    | none => { macd_line := none, signal_line := none, histogram := none }
    | some lastRow =>
      let histogram_declining :=
        if 3 ≤ rows.length then
          match (rows.drop (rows.length - 3)).map MACDRow.hist with
          | [some h0, some h1, some h2] => decide (h2 < h1 ∧ h1 < h0)
          | _ => false
        else false
      { macd_line := lastRow.macd.map (roundTo 4)
        signal_line := lastRow.signal.map (roundTo 4)
        histogram := lastRow.hist.map (roundTo 4)
        histogram_declining := histogram_declining }

/-- One row of the pandas_ta Bollinger frame (`none` models NaN or a missing
column of the version-dependent frame layout). -/
structure BBRow where
  lower : Option ℚ
  middle : Option ℚ
  upper : Option ℚ
  bandwidth : Option ℚ
  percent : Option ℚ
  deriving DecidableEq, Repr

/-- Embeds `compute_bollinger`: `None` below `period` bars. -/
def compute_bollinger (ta_bbands : List Bar → ℕ → ℚ → List BBRow) (df : List Bar)
    (period : ℕ) (std_dev : ℚ) : Option (List BBRow) :=
  if df.isEmpty || df.length < period then none
  else some (ta_bbands df period std_dev)

/-- Embeds `get_current_bollinger`: last Bollinger row rounded to 4 decimals, with
the price-above-upper-band comparison against the last close of the frame; an
all-`none` result when the frame is missing or empty. -/
def get_current_bollinger (ta_bbands : List Bar → ℕ → ℚ → List BBRow)
    (df : List Bar) (period : ℕ) (std_dev : ℚ) : BollingerResult :=
  match compute_bollinger ta_bbands df period std_dev with
  | none =>
    { upper := none, middle := none, lower := none, bandwidth := none, percent_b := none }
  | some rows =>
    match rows.getLast?, df.getLast? with
    | some row, some lastBar =>
      { upper := row.upper.map (roundTo 4)
        middle := row.middle.map (roundTo 4)
        lower := row.lower.map (roundTo 4)
        bandwidth := row.bandwidth.map (roundTo 4)
        percent_b := row.percent.map (roundTo 4)
        price_above_upper :=
          match row.upper with
          | some upper => decide (upper < lastBar.close)
          | none => false }
    | _, _ =>
      { upper := none, middle := none, lower := none, bandwidth := none, percent_b := none }

/-- Embeds `compute_atr`: `None` below `period + 1` bars. -/
def compute_atr (ta_atr : List Bar → ℕ → List (Option ℚ)) (df : List Bar)
    (period : ℕ) : Option (List (Option ℚ)) :=
  if df.isEmpty || df.length < period + 1 then none
  else some (ta_atr df period)

/-- Embeds `get_current_atr`: last ATR value, `None` when missing, empty or NaN;
rounded to 4 decimals. -/
def get_current_atr (ta_atr : List Bar → ℕ → List (Option ℚ)) (df : List Bar)
    (period : ℕ) : Option ℚ :=
  match compute_atr ta_atr df period with
  | none => none
  | some atr =>
    match atr.getLast? with
    | none => none
    | some none => none
    | some (some latest) => some (roundTo 4 latest)

-- -----------------------------------------------------------------------------
-- Claim-side (spec-side) definitions used for refinement statements
-- -----------------------------------------------------------------------------

/-- The ordered keyword-group table of the spec (section 4.3): priority order
FDA/clinical, M&A, earnings, analyst-upgrade, contract/partnership,
meme/social, vague-speculative; each group with its fixed
(catalyst type, sentiment, justifies-repricing, summary) tuple. -/
def catalystKeywordTable :
    List (List String × CatalystClassification × SentimentLevel × Bool × String) :=
  [(fda_keywords, CatalystClassification.FDA, SentimentLevel.STRONGLY_POSITIVE, true,
     "FDA/clinical news detected"),
   (ma_keywords, CatalystClassification.MA, SentimentLevel.STRONGLY_POSITIVE, true,
     "M&A activity detected"),
   (earnings_keywords, CatalystClassification.EARNINGS, SentimentLevel.POSITIVE, true,
     "Earnings-related news detected"),
   (upgrade_keywords, CatalystClassification.UPGRADE, SentimentLevel.POSITIVE, false,
     "Analyst upgrade detected"),
   (contract_keywords, CatalystClassification.CONTRACT, SentimentLevel.POSITIVE, false,
     "Contract/partnership news detected"),
   (meme_keywords, CatalystClassification.MEME_SOCIAL, SentimentLevel.MIXED, false,
     "Social/meme activity detected"),
   (speculative_keywords, CatalystClassification.SPECULATIVE, SentimentLevel.MIXED, false,
     "Speculative/vague PR detected")]

/-- First keyword group of `catalystKeywordTable` matching the text wins;
no match yields the UNKNOWN tuple. -/
def firstMatchClassification (text : List Char) :
    CatalystClassification × SentimentLevel × Bool × String :=
  match catalystKeywordTable.find? (fun g => anyKeyword g.1 text) with
  | some g => g.2
  | none => (CatalystClassification.UNKNOWN, SentimentLevel.MIXED, false,
      "No clear catalyst identified")

/-- The additive 1-day ROC band of the spec: ≥50% → 0.6, ≥30% → 0.4, ≥20% → 0.2. -/
def oneDayBand : Option ℚ → ℚ
  | some r1 => if 50 ≤ r1 then 3/5 else if 30 ≤ r1 then 2/5 else if 20 ≤ r1 then 1/5 else 0
  | none => 0

/-- The additive 5-day ROC band of the spec: ≥100% → 0.6, ≥50% → 0.4, ≥30% → 0.2. -/
def fiveDayBand : Option ℚ → ℚ
  | some r5 => if 100 ≤ r5 then 3/5 else if 50 ≤ r5 then 2/5 else if 30 ≤ r5 then 1/5 else 0
  | none => 0

/-- The deceleration bonus the code actually pays: +0.3 when the 3-day ROC is
present and below 60% of a positive 5-day ROC. -/
def decelBonus : Option ℚ → Option ℚ → ℚ
  | some r3, some r5 => if 0 < r5 ∧ r3 < r5 * (3/5) then 3/10 else 0
  | _, _ => 0

-- -----------------------------------------------------------------------------
-- Concrete values used by witnesses and counterexamples
-- -----------------------------------------------------------------------------

/-- The `Settings()` instance with every documented default. -/
def defaultSettings : Settings := {}

/-- A sentiment result carrying a reachable non-multiple-of-0.1 adjustment
(UNKNOWN/MIXED at confidence 0.25 gives raw (0.5+0.5)*0.25 = 0.25). -/
def ceSentimentResult : SentimentResult :=
  { ticker := "CEX"
    assessment := some
      { catalyst_type := CatalystClassification.UNKNOWN
        sentiment := SentimentLevel.MIXED
        summary := ""
        justifies_repricing := false
        confidence := 1/4 }
    score_adjustment := 1/4
    raw_adjustment := 1/4
    analysis_source := "heuristic" }

/-- Ranking input whose exact clamped score 5.25 is not representable at one
decimal. -/
def ceRankingInput : RankingInput :=
  { ticker := "CEX"
    current_price := 10
    change_percent := 20
    tech_score := 5
    tech_state := {}
    sentiment_result := ceSentimentResult
    risk_flags := []
    key_levels := {} }

/-- Ranking input at the pathological extreme of the spec: technical score
10, sentiment adjustment +3, no risk flags. -/
def wRankingInput : RankingInput :=
  { ticker := "WIT"
    current_price := 10
    change_percent := 20
    tech_score := 10
    tech_state := {}
    sentiment_result :=
      { ticker := "WIT"
        assessment := some { justifies_repricing := false }
        score_adjustment := 3
        raw_adjustment := 3
        analysis_source := "heuristic" }
    risk_flags := []
    key_levels := {} }

/-- A sentiment result with no assessment, for exercising
`determine_expression` in isolation. -/
def plainSentimentResult : SentimentResult :=
  { ticker := "PLN"
    assessment := none
    score_adjustment := 0
    raw_adjustment := 0
    analysis_source := "none" }

/-- An indicator snapshot satisfying every constraint of the perfect-storm
scenario of the spec (RSI 95, above the upper band, declining histogram,
volume ratio 0.5 unconfirming, 1-day ROC 60%, both patterns), with the
unconstrained fields at unremarkable values. -/
def stormSnapshot : IndicatorSnapshot :=
  { rsi_daily := some 95
    rsi_intraday := none
    bb :=
      { upper := some 20
        middle := some 15
        lower := some 10
        bandwidth := none
        percent_b := some (21/20)
        price_above_upper := true }
    macd :=
      { macd_line := some 1
        signal_line := some (1/2)
        histogram := some (1/2)
        histogram_declining := true }
    volume_vs_avg := some (1/2)
    volume_confirming := false
    roc_1d := some 60
    roc_3d := none
    roc_5d := none
    lower_high := true
    exhaustion := true }

-- -----------------------------------------------------------------------------
-- Helper lemmas
-- -----------------------------------------------------------------------------

theorem ratFloor_eq_floor (q : ℚ) : (Rat.floor q : ℤ) = ⌊q⌋ :=
  (Rat.floor_def' q).trans Rat.floor_def.symm

theorem roundHalfEven_le_ceil (x : ℚ) : roundHalfEven x ≤ ⌈x⌉ := by
  unfold roundHalfEven
  rw [ratFloor_eq_floor]
  have hfc : ⌊x⌋ ≤ ⌈x⌉ := Int.floor_le_ceil x
  split_ifs with h1 h2 h3
  · exact hfc
  · have hlt : (⌊x⌋ : ℚ) < x := by linarith
    have := Int.lt_ceil.mpr hlt
    omega
  · exact hfc
  · have hlt : (⌊x⌋ : ℚ) < x := by
      push_neg at h1
      linarith
    have := Int.lt_ceil.mpr hlt
    omega

theorem floor_le_roundHalfEven (x : ℚ) : ⌊x⌋ ≤ roundHalfEven x := by
  unfold roundHalfEven
  rw [ratFloor_eq_floor]
  split_ifs <;> omega

theorem roundTo_le (d : ℕ) (x : ℚ) (m : ℤ) (h : x ≤ (m : ℚ) / 10 ^ d) :
    roundTo d x ≤ (m : ℚ) / 10 ^ d := by
  have hp : (0:ℚ) < 10 ^ d := by positivity
  have hx : x * 10 ^ d ≤ (m : ℚ) := by
    have := mul_le_mul_of_nonneg_right h hp.le
    rwa [div_mul_cancel₀ _ hp.ne'] at this
  have hceil : ⌈x * 10 ^ d⌉ ≤ m := Int.ceil_le.mpr hx
  have hr : roundHalfEven (x * 10 ^ d) ≤ m := le_trans (roundHalfEven_le_ceil _) hceil
  rw [roundTo]
  have hcast : (roundHalfEven (x * 10 ^ d) : ℚ) ≤ (m : ℚ) := by exact_mod_cast hr
  exact div_le_div_of_nonneg_right hcast hp.le

theorem le_roundTo (d : ℕ) (x : ℚ) (m : ℤ) (h : (m : ℚ) / 10 ^ d ≤ x) :
    (m : ℚ) / 10 ^ d ≤ roundTo d x := by
  have hp : (0:ℚ) < 10 ^ d := by positivity
  have hx : (m : ℚ) ≤ x * 10 ^ d := by
    have := mul_le_mul_of_nonneg_right h hp.le
    rwa [div_mul_cancel₀ _ hp.ne'] at this
  have hfloor : m ≤ ⌊x * 10 ^ d⌋ := Int.le_floor.mpr hx
  have hr : m ≤ roundHalfEven (x * 10 ^ d) := le_trans hfloor (floor_le_roundHalfEven _)
  rw [roundTo]
  have hcast : (m : ℚ) ≤ (roundHalfEven (x * 10 ^ d) : ℚ) := by exact_mod_cast hr
  exact div_le_div_of_nonneg_right hcast hp.le

theorem computeRiskPenaltyAux_eq_sum (l : List RiskFlag) (seen : Finset RiskFlag) :
    computeRiskPenaltyAux l seen = ∑ f ∈ l.toFinset \ seen, RISK_PENALTIES f := by
  induction l generalizing seen with
  | nil => simp [computeRiskPenaltyAux]
  | cons f rest ih =>
    rw [computeRiskPenaltyAux, List.toFinset_cons]
    by_cases hf : f ∈ seen
    · rw [if_pos hf, ih]
      congr 1
      ext a
      by_cases haf : a = f <;> simp [haf, hf]
    · rw [if_neg hf, ih (insert f seen)]
      have hset : insert f rest.toFinset \ seen
          = insert f (rest.toFinset \ insert f seen) := by
        ext a
        by_cases haf : a = f <;> simp [haf, hf]
      rw [hset, Finset.sum_insert (by simp)]

theorem compute_risk_penalty_eq_sum (l : List RiskFlag) :
    compute_risk_penalty l = ∑ f ∈ l.toFinset, RISK_PENALTIES f := by
  rw [compute_risk_penalty, computeRiskPenaltyAux_eq_sum, Finset.sdiff_empty]

theorem filter_orderedInsert_key (k : ℚ) (a : RankingResult) (l : List RankingResult) :
    (l.orderedInsert (fun x y => y.final_score ≤ x.final_score) a).filter
        (fun r => decide (r.final_score = k))
      = ((a :: l).filter (fun r => decide (r.final_score = k))) := by
  induction l with
  | nil => rfl
  | cons b t ih =>
    rw [List.orderedInsert]
    by_cases h : b.final_score ≤ a.final_score
    · rw [if_pos h]
    · rw [if_neg h]
      by_cases hb : b.final_score = k
      · have ha : ¬ (a.final_score = k) := by
          intro hh
          exact h (by rw [hb, hh])
        simp [List.filter_cons, hb, ha, ih]
      · simp [List.filter_cons, hb, ih]

theorem filter_insertionSort_key (k : ℚ) (l : List RankingResult) :
    (l.insertionSort (fun x y => y.final_score ≤ x.final_score)).filter
        (fun r => decide (r.final_score = k))
      = l.filter (fun r => decide (r.final_score = k)) := by
  induction l with
  | nil => rfl
  | cons a t ih =>
    rw [List.insertionSort, filter_orderedInsert_key, List.filter_cons,
      List.filter_cons, ih]

-- -----------------------------------------------------------------------------
-- Claim theorems
-- -----------------------------------------------------------------------------

/-- C9: `compute_risk_penalty` is invariant under duplication of flags: its
result equals the sum of the per-flag penalty table over the distinct flags
of the list, and `compute_risk_penalty l = compute_risk_penalty l.dedup`
for every list `l`. -/
theorem C9_risk_penalty_dedup_invariant (l : List RiskFlag) :
    compute_risk_penalty l = compute_risk_penalty l.dedup ∧
    compute_risk_penalty l = ∑ f ∈ l.toFinset, RISK_PENALTIES f := by
  constructor
  · have hsets : l.dedup.toFinset = l.toFinset := by
      ext a
      simp
    rw [compute_risk_penalty_eq_sum, compute_risk_penalty_eq_sum, hsets]
  · exact compute_risk_penalty_eq_sum l

/-- C2: whenever the flag list contains both MICROCAP and HIGH_SQUEEZE,
`determine_expression` returns AVOID, for every final score, beta,
sentiment result and beta threshold: the dangerous-combination rule is
evaluated first. -/
theorem C2_dangerous_combo_always_avoid (final_score : ℚ) (risk_flags : List RiskFlag)
    (beta : Option ℚ) (sentiment_result : SentimentResult) (mb : ℚ)
    (hM : RiskFlag.MICROCAP ∈ risk_flags) (hH : RiskFlag.HIGH_SQUEEZE ∈ risk_flags) :
    determine_expression final_score risk_flags beta sentiment_result mb
      = TradeExpression.AVOID := by
  have hdanger : has_dangerous_risk_profile_from_flags risk_flags.toFinset = true := by
    simp only [has_dangerous_risk_profile_from_flags, List.any_cons, Bool.or_eq_true,
      decide_eq_true_eq]
    left
    rw [Finset.insert_subset_iff, Finset.singleton_subset_iff]
    exact ⟨List.mem_toFinset.mpr hM, List.mem_toFinset.mpr hH⟩
  simp [determine_expression, hdanger]

/-- Witness for C2 at a concrete microcap+squeeze candidate. -/
theorem C2_dangerous_combo_always_avoid_witness :
    determine_expression 9 [RiskFlag.MICROCAP, RiskFlag.HIGH_SQUEEZE] none
      plainSentimentResult 3 = TradeExpression.AVOID :=
  C2_dangerous_combo_always_avoid 9 _ none plainSentimentResult 3
    (by simp) (by simp)

/-- C7: for every assessment, the capped adjustment of
`compute_score_adjustment` lies in [-5, 3], and zero confidence scales the
raw pre-clamp adjustment to exactly 0, hence a final adjustment of 0. -/
theorem C7_adjustment_capped_and_zero_confidence (assessment : NewsAssessment) :
    -5 ≤ (compute_score_adjustment assessment).1 ∧
    (compute_score_adjustment assessment).1 ≤ 3 ∧
    (assessment.confidence = 0 →
      (compute_score_adjustment assessment).2 = 0 ∧
      (compute_score_adjustment assessment).1 = 0) := by
  refine ⟨le_max_left _ _, max_le (by norm_num) (min_le_left _ _), fun h0 => ?_⟩
  constructor
  · simp [compute_score_adjustment, h0]
  · simp [compute_score_adjustment, h0]

/-- Witness for C7 at a concrete zero-confidence assessment. -/
theorem C7_adjustment_capped_and_zero_confidence_witness :
    (compute_score_adjustment
        { catalyst_type := CatalystClassification.MA
          sentiment := SentimentLevel.STRONGLY_POSITIVE
          summary := "deal"
          justifies_repricing := true
          confidence := 0 }).2 = 0 ∧
    (compute_score_adjustment
        { catalyst_type := CatalystClassification.MA
          sentiment := SentimentLevel.STRONGLY_POSITIVE
          summary := "deal"
          justifies_repricing := true
          confidence := 0 }).1 = 0 :=
  (C7_adjustment_capped_and_zero_confidence _).2.2 rfl

/-- C5: with no news feed or an empty one, `analyze_catalyst` takes the
fixed no-news path and returns UNKNOWN, justifies_repricing = false and an
adjustment of exactly +0.5, bypassing the table/confidence computation
(analysis source "none"). -/
theorem C5_no_news_fixed_path (ticker : String) (change_percent : ℚ)
    (news_feed : Option NewsFeed) (claude_client : Option ClaudeAnalyze)
    (h : news_feed = none ∨ ∃ feed, news_feed = some feed ∧ feed.items = []) :
    analyze_catalyst ticker change_percent news_feed claude_client =
      { ticker := ticker
        assessment := some
          { catalyst_type := CatalystClassification.UNKNOWN
            sentiment := SentimentLevel.MIXED
            summary := "No news available"
            justifies_repricing := false
            confidence := 1/5 }
        score_adjustment := 1/2
        raw_adjustment := 1/2
        analysis_source := "none" } := by
  rcases h with h | ⟨feed, hfeed, hempty⟩
  · rw [h]
    rfl
  · rw [hfeed]
    simp [analyze_catalyst, hempty]

/-- Witness for C5 at a concrete ticker with an absent news feed. -/
theorem C5_no_news_fixed_path_witness :
    analyze_catalyst "NONEWS" 80 none none =
      { ticker := "NONEWS"
        assessment := some
          { catalyst_type := CatalystClassification.UNKNOWN
            sentiment := SentimentLevel.MIXED
            summary := "No news available"
            justifies_repricing := false
            confidence := 1/5 }
        score_adjustment := 1/2
        raw_adjustment := 1/2
        analysis_source := "none" } :=
  C5_no_news_fixed_path "NONEWS" 80 none none (Or.inl rfl)

/-- C10: `rank_candidates_batch` returns exactly the per-input results of
`rank_candidate`, as a permutation sorted non-increasingly by final score,
and the sort is stable: for every score value, the results carrying it
appear in input order. -/
theorem C10_batch_is_stable_descending_sort (inputs : List RankingInput) (mb : ℚ) :
    (rank_candidates_batch inputs mb).Perm
        (inputs.map (fun input_data => rank_candidate input_data mb)) ∧
    (rank_candidates_batch inputs mb).Pairwise
        (fun a b => b.final_score ≤ a.final_score) ∧
    ∀ k : ℚ,
      (rank_candidates_batch inputs mb).filter (fun r => decide (r.final_score = k))
        = (inputs.map (fun input_data => rank_candidate input_data mb)).filter
            (fun r => decide (r.final_score = k)) := by
  refine ⟨List.perm_insertionSort _ _, ?_, fun k => filter_insertionSort_key k _⟩
  haveI : IsTotal RankingResult (fun a b => b.final_score ≤ a.final_score) :=
    ⟨fun a b => le_total b.final_score a.final_score⟩
  haveI : IsTrans RankingResult (fun a b => b.final_score ≤ a.final_score) :=
    ⟨fun _ _ _ hab hbc => le_trans hbc hab⟩
  exact List.sorted_insertionSort _ _

/-- C1 (amended): the final score of `rank_candidate` equals
clamp(tech + sentiment − risk penalty, 0, 10) rounded half-to-even to one
decimal; it always lies in [0, 10], and the extreme tech = 10,
sentiment = +3, penalty = 0 yields exactly 10. -/
theorem C1_final_score_clamped_rounded (input_data : RankingInput) (mb : ℚ) :
    (rank_candidate input_data mb).final_score
      = roundTo 1 (clampQ 0 10 (input_data.tech_score
          + input_data.sentiment_result.score_adjustment
          - (rank_candidate input_data mb).risk_penalty))
    ∧ 0 ≤ (rank_candidate input_data mb).final_score
    ∧ (rank_candidate input_data mb).final_score ≤ 10
    ∧ (input_data.tech_score = 10 →
        input_data.sentiment_result.score_adjustment = 3 →
        (rank_candidate input_data mb).risk_penalty = 0 →
        (rank_candidate input_data mb).final_score = 10) := by
  have hfs : (rank_candidate input_data mb).final_score
      = roundTo 1 (clampQ 0 10 (input_data.tech_score
          + input_data.sentiment_result.score_adjustment
          - (rank_candidate input_data mb).risk_penalty)) := rfl
  have hy0 : (0:ℚ) ≤ clampQ 0 10 (input_data.tech_score
      + input_data.sentiment_result.score_adjustment
      - (rank_candidate input_data mb).risk_penalty) := le_max_left _ _
  have hy10 : clampQ 0 10 (input_data.tech_score
      + input_data.sentiment_result.score_adjustment
      - (rank_candidate input_data mb).risk_penalty) ≤ 10 :=
    max_le (by norm_num) (min_le_left _ _)
  refine ⟨hfs, ?_, ?_, ?_⟩
  · rw [hfs]
    have := le_roundTo 1 _ 0 (by simpa using hy0)
    simpa using this
  · rw [hfs]
    have := roundTo_le 1 (clampQ 0 10 (input_data.tech_score
      + input_data.sentiment_result.score_adjustment
      - (rank_candidate input_data mb).risk_penalty)) 100 (by push_cast; norm_num; linarith)
    rw [show ((100:ℤ) : ℚ) / 10 ^ 1 = 10 by norm_num] at this
    exact this
  · intro h1 h2 h3
    rw [hfs, h1, h2, h3]
    rw [show clampQ 0 10 ((10:ℚ) + 3 - 0) = 10 by rw [clampQ]; norm_num [min_def, max_def]]
    norm_num [roundTo, roundHalfEven, Rat.floor_def']

/-- Witness for C1 at the pathological extreme named by the spec. -/
theorem C1_final_score_clamped_rounded_witness :
    (rank_candidate wRankingInput 3).final_score = 10 :=
  (C1_final_score_clamped_rounded wRankingInput 3).2.2.2 rfl rfl rfl

/-- Counterexample to C1 as stated: at a reachable input whose clamped raw
score is 5.25, the produced final score is the rounded 5.2, not the clamp
itself. -/
theorem C1_final_score_clamped_rounded_counterexample :
    (rank_candidate ceRankingInput 3).final_score ≠
      clampQ 0 10 (ceRankingInput.tech_score
        + ceRankingInput.sentiment_result.score_adjustment
        - (rank_candidate ceRankingInput 3).risk_penalty) := by
  have hpen : (rank_candidate ceRankingInput 3).risk_penalty = 0 := rfl
  have hfs : (rank_candidate ceRankingInput 3).final_score
      = roundTo 1 (max 0 (min 10 (5 + 1/4 - 0))) := rfl
  rw [hfs, hpen]
  norm_num [ceRankingInput, ceSentimentResult, clampQ, min_def, max_def, roundTo,
    roundHalfEven, Rat.floor_def']

/-- C8: below the minimum history (period+1 bars for RSI/ATR, slow+signal
for MACD, window bars for Bollinger) each indicator accessor returns None
(or the all-None result object) rather than raising, and the scorers map
absent inputs to a 0 contribution. -/
theorem C8_insufficient_history_none_and_zero
    (ta_rsi ta_atr : List Bar → ℕ → List (Option ℚ))
    (ta_macd : List Bar → ℕ → ℕ → ℕ → List MACDRow)
    (ta_bbands : List Bar → ℕ → ℚ → List BBRow)
    (df : List Bar) (period fast slow signal window : ℕ) (std_dev : ℚ)
    (settings : Settings) (bb0 : BollingerResult) (m0 : MACDResult) :
    (df.length < period + 1 →
      compute_rsi ta_rsi df period = none ∧
      get_current_rsi ta_rsi df period = none ∧
      compute_atr ta_atr df period = none ∧
      get_current_atr ta_atr df period = none)
    ∧ (df.length < slow + signal →
      compute_macd ta_macd df fast slow signal = none ∧
      get_current_macd ta_macd df fast slow signal
        = { macd_line := none, signal_line := none, histogram := none,
            histogram_declining := false })
    ∧ (df.length < window →
      compute_bollinger ta_bbands df window std_dev = none ∧
      get_current_bollinger ta_bbands df window std_dev
        = { upper := none, middle := none, lower := none, bandwidth := none,
            percent_b := none, price_above_upper := false })
    ∧ score_rsi none settings = 0
    ∧ (bb0.percent_b = none → score_bollinger bb0 = 0)
    ∧ (m0.histogram = none → score_macd m0 = 0)
    ∧ score_volume none true = 0
    ∧ score_momentum none none none = 0 := by
  refine ⟨fun hlen => ?_, fun hlen => ?_, fun hlen => ?_, rfl,
    fun hnone => ?_, fun hnone => ?_, ?_, ?_⟩
  · simp [compute_rsi, get_current_rsi, compute_atr, get_current_atr, hlen]
  · simp [compute_macd, get_current_macd, hlen]
  · simp [compute_bollinger, get_current_bollinger, hlen]
  · simp [score_bollinger, hnone]
  · simp [score_macd, hnone]
  · show min (0:ℚ) (3/2) = 0
    exact min_eq_left (by norm_num)
  · show min (0:ℚ) (3/2) = 0
    exact min_eq_left (by norm_num)

/-- Witness for C8 on an empty price frame with the default parameters. -/
theorem C8_insufficient_history_none_and_zero_witness :
    compute_rsi (fun _ _ => []) [] 14 = none ∧
    get_current_rsi (fun _ _ => []) [] 14 = none ∧
    compute_atr (fun _ _ => []) [] 14 = none ∧
    get_current_atr (fun _ _ => []) [] 14 = none ∧
    compute_macd (fun _ _ _ _ => []) [] 12 26 9 = none ∧
    compute_bollinger (fun _ _ _ => []) [] 20 2 = none := by
  have h := C8_insufficient_history_none_and_zero (fun _ _ => []) (fun _ _ => [])
    (fun _ _ _ _ => []) (fun _ _ _ => []) [] 14 12 26 9 20 2 {}
    { upper := none, middle := none, lower := none, bandwidth := none, percent_b := none }
    { macd_line := none, signal_line := none, histogram := none }
  obtain ⟨h1, h2, h3, _⟩ := h
  obtain ⟨r1, r2, r3, r4⟩ := h1 (by decide)
  exact ⟨r1, r2, r3, r4, (h2 (by decide)).1, (h3 (by decide)).1⟩

/-- C4 (amended): the momentum sub-score is the additive 1-day and 5-day
bands plus a 0.3 deceleration bonus that is a function of the 3-day and
5-day ROC (present 3-day ROC below 60% of a positive 5-day ROC), not of the
1-day ROC; the total is capped at 1.5. -/
theorem C4_momentum_decomposition (roc_1d roc_3d roc_5d : Option ℚ) :
    score_momentum roc_1d roc_3d roc_5d
      = min (oneDayBand roc_1d + fiveDayBand roc_5d + decelBonus roc_3d roc_5d)
          (3/2) := by
  unfold score_momentum
  refine congrArg (fun z => min z (3/2)) ?_
  rcases roc_1d with _ | r1 <;> rcases roc_3d with _ | r3 <;> rcases roc_5d with _ | r5 <;>
    simp only [oneDayBand, fiveDayBand, decelBonus] <;> (try split_ifs) <;> ring

/-- Counterexample to C4 as stated: with the 1-day and 5-day ROC held fixed,
the 0.3 bonus appears or disappears with the 3-day ROC alone, so the bonus
is not paid "exactly when the 1-day ROC decelerates relative to the
5-day". -/
theorem C4_momentum_decomposition_counterexample :
    score_momentum (some 10) (some 100) (some 100) = 3/5 ∧
    score_momentum (some 10) (some 10) (some 100) = 9/10 ∧
    score_momentum (some 10) (some 100) (some 100)
      ≠ score_momentum (some 10) (some 10) (some 100) := by
  refine ⟨?_, ?_, ?_⟩ <;> (unfold score_momentum; norm_num [min_def])

/-- C6 (amended): the heuristic classifier is the ordered-keyword-table
first-match classifier at confidence 0.5, except that the sentiment of the
matched tuple is demoted to MIXED when the daily change exceeds 50% and the
matched group does not justify repricing; an M&A keyword beats an earnings
keyword whenever no FDA/clinical keyword is present. -/
theorem C6_first_match_priority (headlines : List String) (change_percent : ℚ) :
    (heuristic_catalyst_detection headlines change_percent =
      (let cls := firstMatchClassification (joinLowerHeadlines headlines)
       { catalyst_type := cls.1
         sentiment :=
           if 50 < change_percent ∧ cls.2.2.1 = false then SentimentLevel.MIXED
           else cls.2.1
         summary := cls.2.2.2
         justifies_repricing := cls.2.2.1
         confidence := 1/2 } : NewsAssessment)) ∧
    (anyKeyword ma_keywords (joinLowerHeadlines headlines) = true →
      anyKeyword fda_keywords (joinLowerHeadlines headlines) = false →
      (heuristic_catalyst_detection headlines change_percent).catalyst_type
        = CatalystClassification.MA) := by
  constructor
  · by_cases h1 : anyKeyword fda_keywords (joinLowerHeadlines headlines) = true
    · simp [heuristic_catalyst_detection, firstMatchClassification,
        catalystKeywordTable, List.find?, h1]
    by_cases h2 : anyKeyword ma_keywords (joinLowerHeadlines headlines) = true
    · simp [heuristic_catalyst_detection, firstMatchClassification,
        catalystKeywordTable, List.find?, h1, h2]
    by_cases h3 : anyKeyword earnings_keywords (joinLowerHeadlines headlines) = true
    · simp [heuristic_catalyst_detection, firstMatchClassification,
        catalystKeywordTable, List.find?, h1, h2, h3]
    by_cases h4 : anyKeyword upgrade_keywords (joinLowerHeadlines headlines) = true
    · simp [heuristic_catalyst_detection, firstMatchClassification,
        catalystKeywordTable, List.find?, h1, h2, h3, h4]
    by_cases h5 : anyKeyword contract_keywords (joinLowerHeadlines headlines) = true
    · simp [heuristic_catalyst_detection, firstMatchClassification,
        catalystKeywordTable, List.find?, h1, h2, h3, h4, h5]
    by_cases h6 : anyKeyword meme_keywords (joinLowerHeadlines headlines) = true
    · simp [heuristic_catalyst_detection, firstMatchClassification,
        catalystKeywordTable, List.find?, h1, h2, h3, h4, h5, h6]
    by_cases h7 : anyKeyword speculative_keywords (joinLowerHeadlines headlines) = true
    · simp [heuristic_catalyst_detection, firstMatchClassification,
        catalystKeywordTable, List.find?, h1, h2, h3, h4, h5, h6, h7]
    · simp [heuristic_catalyst_detection, firstMatchClassification,
        catalystKeywordTable, List.find?, h1, h2, h3, h4, h5, h6, h7]
  · intro hma hfda
    simp [heuristic_catalyst_detection, hma, hfda]

/-- Witness for C6: a headline with both an M&A keyword and an earnings
keyword and no FDA keyword classifies as M&A. -/
theorem C6_first_match_priority_witness :
    (heuristic_catalyst_detection ["Merger beat estimates"] 10).catalyst_type
      = CatalystClassification.MA :=
  (C6_first_match_priority ["Merger beat estimates"] 10).2 (by decide) (by decide)

/-- Counterexample to C6 as stated: the analyst-upgrade group tuple has
sentiment POSITIVE, yet the same single-headline list classifies with
sentiment MIXED on a 60% day, so the resulting tuple is not fixed by the
matched group alone. -/
theorem C6_first_match_priority_counterexample :
    (heuristic_catalyst_detection ["upgrade"] 60).catalyst_type
      = CatalystClassification.UPGRADE ∧
    (heuristic_catalyst_detection ["upgrade"] 10).sentiment
      = SentimentLevel.POSITIVE ∧
    (heuristic_catalyst_detection ["upgrade"] 60).sentiment
      = SentimentLevel.MIXED := by
  exact ⟨rfl, rfl, rfl⟩

theorem score_macd_le (m : MACDResult) (hst : ℚ) (hh : m.histogram = some hst) :
    score_macd m ≤ 3/2 := by
  unfold score_macd
  rw [hh]
  exact min_le_right _ _

theorem score_macd_ge_declining (m : MACDResult) (hst : ℚ) (hh : m.histogram = some hst)
    (hd : m.histogram_declining = true) : 4/5 ≤ score_macd m := by
  unfold score_macd
  rw [hh]
  refine le_min ?_ (by norm_num)
  rw [hd]
  rcases m.macd_line with _ | mlv <;> rcases m.signal_line with _ | slv <;>
    simp <;> split_ifs <;> norm_num

theorem score_momentum_le (r1 r3 r5 : Option ℚ) : score_momentum r1 r3 r5 ≤ 3/2 := by
  unfold score_momentum
  exact min_le_right _ _

theorem score_momentum_ge_60 (r3 r5 : Option ℚ) :
    3/5 ≤ score_momentum (some 60) r3 r5 := by
  unfold score_momentum
  dsimp only
  refine le_min ?_ (by norm_num)
  have h1 : (if (50:ℚ) ≤ 60 then (3:ℚ)/5 else if (30:ℚ) ≤ 60 then 2/5
      else if (20:ℚ) ≤ 60 then 1/5 else 0) = 3/5 := by norm_num
  rw [h1]
  rcases r3 with _ | r3v <;> rcases r5 with _ | r5v <;>
    dsimp only <;> (try split_ifs) <;> norm_num

/-- C3 (amended): under the perfect-storm constraints (RSI 95, price above
the upper band with %B available, declining MACD histogram, volume ratio
0.5 without confirmation, 1-day ROC 60%, both reversal patterns), the
technical score lies in [8.4, 10.0]; it reaches 10.0 only when the MACD and
momentum sub-scores also reach their caps, and never exceeds 10. -/
theorem C3_storm_scenario_bounds (snap : IndicatorSnapshot) (pb hst : ℚ)
    (hrsi : snap.rsi_daily = some 95)
    (habove : snap.bb.price_above_upper = true)
    (hpb : snap.bb.percent_b = some pb)
    (hhist : snap.macd.histogram = some hst)
    (hdecl : snap.macd.histogram_declining = true)
    (hvol : snap.volume_vs_avg = some (1/2))
    (hconf : snap.volume_confirming = false)
    (hroc : snap.roc_1d = some 60)
    (hlh : snap.lower_high = true)
    (hex : snap.exhaustion = true) :
    42/5 ≤ compute_technical_score defaultSettings snap ∧
    compute_technical_score defaultSettings snap ≤ 10 := by
  obtain ⟨rsid, rsii, bb, macd, vva, vc, r1, r3, r5, lh, ex⟩ := snap
  obtain ⟨bbu, bbm, bbl, bbw, bbp, bba⟩ := bb
  obtain ⟨ml, sl, hg, hd⟩ := macd
  dsimp only at hrsi habove hpb hhist hdecl hvol hconf hroc hlh hex
  subst hrsi habove hpb hhist hdecl hvol hconf hroc hlh hex
  have hM1 : score_macd ⟨ml, sl, some hst, true⟩ ≤ 3/2 := score_macd_le _ hst rfl
  have hM0 : 4/5 ≤ score_macd ⟨ml, sl, some hst, true⟩ :=
    score_macd_ge_declining _ hst rfl rfl
  have hMo1 : score_momentum (some 60) r3 r5 ≤ 3/2 := score_momentum_le _ _ _
  have hMo0 : 3/5 ≤ score_momentum (some 60) r3 r5 := score_momentum_ge_60 _ _
  have hB : score_bollinger ⟨bbu, bbm, bbl, bbw, some pb, true⟩ = 2 := by
    unfold score_bollinger
    simp
  have hV : score_volume (some (1/2)) false = 3/2 := by
    unfold score_volume
    norm_num [min_def]
  have hP : score_patterns true true = 3/2 := by
    unfold score_patterns
    norm_num [min_def]
  unfold compute_technical_score compute_breakdown defaultSettings
  dsimp only
  have hR : score_rsi (match (some (95:ℚ) : Option ℚ), rsii with
      | some rsi_d, some rsi_i => some (max rsi_d rsi_i)
      | _, _ => (some (95:ℚ) : Option ℚ)) {} = 2 := by
    rcases rsii with _ | ri
    · norm_num [score_rsi]
    · have h90 : (90:ℚ) ≤ max 95 ri := le_trans (by norm_num) (le_max_left _ _)
      simp [score_rsi, h90]
  rw [hR, hB, hV, hP]
  have hcancel5 : ∀ x : ℚ, x * (1/5) / (1/5) = x := fun x => by ring
  have hcancel20 : ∀ x : ℚ, x * (3/20) / (3/20) = x := fun x => by ring
  simp only [hcancel5, hcancel20]
  have hsum0 : 42/5 ≤ min (2 + 2 + score_macd ⟨ml, sl, some hst, true⟩ + 3/2
      + score_momentum (some 60) r3 r5 + 3/2) 10 :=
    le_min (by linarith) (by norm_num)
  have hsum1 : min (2 + 2 + score_macd ⟨ml, sl, some hst, true⟩ + 3/2
      + score_momentum (some 60) r3 r5 + 3/2) 10 ≤ 10 := min_le_right _ _
  constructor
  · have h84 : ((84:ℤ) : ℚ) / 10 ^ 1 ≤ min (2 + 2 + score_macd ⟨ml, sl, some hst, true⟩
        + 3/2 + score_momentum (some 60) r3 r5 + 3/2) 10 := by
      rw [show ((84:ℤ) : ℚ) / 10 ^ 1 = 42/5 by norm_num]
      exact hsum0
    have := le_roundTo 1 _ 84 h84
    rw [show ((84:ℤ) : ℚ) / 10 ^ 1 = 42/5 by norm_num] at this
    exact this
  · have h100 : min (2 + 2 + score_macd ⟨ml, sl, some hst, true⟩ + 3/2
        + score_momentum (some 60) r3 r5 + 3/2) 10 ≤ ((100:ℤ) : ℚ) / 10 ^ 1 := by
      rw [show ((100:ℤ) : ℚ) / 10 ^ 1 = 10 by norm_num]
      exact hsum1
    have := roundTo_le 1 _ 100 h100
    rw [show ((100:ℤ) : ℚ) / 10 ^ 1 = 10 by norm_num] at this
    exact this

/-- Witness for C3 at a concrete storm snapshot. -/
theorem C3_storm_scenario_bounds_witness :
    42/5 ≤ compute_technical_score defaultSettings stormSnapshot ∧
    compute_technical_score defaultSettings stormSnapshot ≤ 10 :=
  C3_storm_scenario_bounds stormSnapshot (21/20) (1/2)
    rfl rfl rfl rfl rfl rfl rfl rfl rfl rfl

/-- Counterexample to C3 as stated: a concrete snapshot satisfying every
scenario constraint whose technical score is 8.4, not 10.0 (the raw
sub-score sum is 8.4 and never exceeds 10 under the scenario). -/
theorem C3_storm_scenario_bounds_counterexample :
    compute_technical_score defaultSettings stormSnapshot = 42/5 ∧
    ((42:ℚ)/5) ≠ 10 := by
  constructor
  · unfold compute_technical_score compute_breakdown defaultSettings stormSnapshot
    unfold score_rsi score_bollinger score_macd score_volume score_momentum score_patterns
    norm_num [min_def, roundTo, roundHalfEven, Rat.floor_def']
  · norm_num
